import Mathlib

/-!
Verification development for the socialmediabot repository.

The definitions below are a shallow embedding of the TypeScript sources:
`nitterSearch.ts` (mirror fetcher, extractor driver, search aggregator),
`worker.ts` (state migration, monitor engine, scheduler) and `discord.ts`
(notification sink).  Machine numbers are modelled as `Int` (JavaScript
numbers on the integer range relevant here), ratios as `ℚ`, fallible code
as `Except`, and the network as explicit oracle functions passed in.
-/

namespace SocialMediaBot

/-! ## JavaScript-ish helpers -/

/-- JavaScript `x || 0` on an optional number: `undefined` and `0` are both
falsy and yield `0`; any other number is returned unchanged. -/
def jsOrZero : Option Int → Int
  | none => 0
  | some n => n

/-- JavaScript `n || 1` on a number: `0` is falsy and yields `1`. -/
def jsOrOne (n : Int) : Int := if n = 0 then 1 else n

/-- JavaScript object assignment `m[k] = v` on a string-keyed record:
replaces the value in place when the key exists, otherwise appends the
pair (insertion-order semantics of JS objects). -/
def objInsert (m : List (String × α)) (k : String) (v : α) : List (String × α) :=
  if m.any (fun kv => kv.1 == k) then
    m.map (fun kv => if kv.1 == k then (k, v) else kv)
  else
    m ++ [(k, v)]

/-- JavaScript property read `m[k]` on a string-keyed record. -/
def objLookup (m : List (String × α)) (k : String) : Option α :=
  (m.find? (fun kv => kv.1 == k)).map (fun kv => kv.2)

/-! ## Data model (`nitterSearch.ts`) -/

/-- `TweetResult` from `nitterSearch.ts`: the four engagement counters and
the creation timestamp are optional; absence means unknown.  `createdAt`
is modelled as epoch milliseconds, since the extractor only stores a
timestamp when date parsing succeeded. -/
structure TweetResult where
  id : String
  url : String
  text : String
  createdAt : Option Int
  authorHandle : Option String
  authorName : Option String
  replies : Option Int
  retweets : Option Int
  quotes : Option Int
  likes : Option Int
deriving Repr, DecidableEq

/-- Counter parsing helper: value of a non-empty decimal digit string. -/
def decDigitsAux : List Char → Nat → Option Nat
  | [], acc => some acc
  | c :: cs, acc =>
    if c.isDigit then decDigitsAux cs (acc * 10 + (c.toNat - 48)) else none

/-- Value of a non-empty list of decimal digits, `none` otherwise. -/
def decDigitsVal (l : List Char) : Option Nat :=
  if l.isEmpty then none else decDigitsAux l 0

/-- JavaScript `Number(s)` restricted to the optionally signed integer
literals that engagement-count labels produce; any other text is `NaN`
and hence `none` (mirrors the `Number.isFinite` guard in the source). -/
def jsNumberInt (s : String) : Option Int :=
  match s.data with
  | '-' :: rest => (decDigitsVal rest).map (fun n => -(n : Int))
  | l => (decDigitsVal l).map (fun n => (n : Int))

/-- JavaScript `raw.replace(",", "")` for all commas. -/
def stripCommas (s : String) : String :=
  String.mk (s.data.filter (fun c => c ≠ ','))

/-- Whitespace characters relevant to the trimmed count labels. -/
def isWsChar (c : Char) : Bool :=
  c = ' ' || c = '\t' || c = '\n' || c = '\r'

/-- JavaScript `s.trim()`: drop leading and trailing whitespace. -/
def jsTrim (s : String) : String :=
  String.mk (((s.data.dropWhile isWsChar).reverse.dropWhile isWsChar).reverse)

/-- `parseCount` from `nitterSearch.ts`: trim, strip thousands separators,
then parse as a number; an absent label, an empty label, or a label that
does not parse as a finite number yields `none` (unknown), never `0`. -/
def parseCount : Option String → Option Int
  | none => none
  | some raw =>
    let trimmed := stripCommas (jsTrim raw)
    if trimmed = "" then none
    else jsNumberInt trimmed

/-! ## Monitor engine classification (`worker.ts`, `processMonitor`) -/

/-- Stored per-tweet stats (`TweetStats` in `worker.ts`). -/
structure TweetStats where
  likes : Int
  retweets : Int
  replies : Int
  lastChecked : Int
deriving Repr, DecidableEq

/-- The default `prevStats` object used when no entry exists. -/
def emptyStats : TweetStats := ⟨0, 0, 0, 0⟩

/-- Age ceiling from `worker.ts`: `3 * 24 * 60 * 60 * 1000`. -/
def THREE_DAYS_MS : Int := 3 * 24 * 60 * 60 * 1000

/-- Growth threshold from `worker.ts`: `0.5`. -/
def TRACTION_GROWTH_PERCENT : ℚ := 1 / 2

/-- The growth test of `processMonitor` for a previously seen tweet:
`currentLikes = tweet.likes || 0`; alert only when `currentLikes` reaches
the traction floor, the growth fraction
`(currentLikes - prev.likes) / (prev.likes || 1)` is at least `0.5`, and
the absolute delta is at least `5`. -/
def classifyGrowth (thresholdLikes prevLikes : Int) (likes : Option Int) : Bool :=
  let currentLikes := jsOrZero likes
  decide (thresholdLikes ≤ currentLikes) &&
    (decide (TRACTION_GROWTH_PERCENT ≤
        ((currentLikes - prevLikes : Int) : ℚ) / ((jsOrOne prevLikes : Int) : ℚ)) &&
      decide ((5 : Int) ≤ currentLikes - prevLikes))

/-- The "stale noise" skip of `processMonitor`: a tweet with a known
creation time older than three days is skipped entirely. -/
def isStale (now : Int) (createdAt : Option Int) : Bool :=
  match createdAt with
  | none => false
  | some t => decide (THREE_DAYS_MS < now - t)

/-- The entry written back by `processMonitor` after evaluating a tweet:
`likes: currentLikes, retweets: currentRTs, replies: tweet.replies || 0,
lastChecked: now`, where each counter is `tweet.x || 0`. -/
def updatedEntry (now : Int) (t : TweetResult) : TweetStats :=
  ⟨jsOrZero t.likes, jsOrZero t.retweets, jsOrZero t.replies, now⟩

/-- The alert decision of `processMonitor` for a previously seen tweet. -/
def seenShouldAlert (thresholdLikes : Int) (prev : TweetStats) (t : TweetResult) : Bool :=
  classifyGrowth thresholdLikes prev.likes t.likes

/-- The flat `seenTweets` record of `worker.ts` (`MonitorState`). -/
abbrev SeenMap := List (String × TweetStats)

/-- The per-tweet loop of `processMonitor` in `worker.ts`, over the records
returned by one search.  `enrichKey` models whether `TWITTER_API_IO_KEY`
is set; `enrich` models `enrichTweets` (its failure is caught and the raw
tweet is posted); `sink` models `postToDiscord`, whose failure is NOT
caught in the source, so it propagates and aborts the loop.  Returns the
final state (or the escaped exception) together with the list of tweet
ids whose alerts were actually delivered, in order. -/
def processMonitorLoop (thresholdLikes now : Int) (enrichKey : Bool)
    (enrich : TweetResult → Except String TweetResult)
    (sink : TweetResult → Except String Unit) :
    SeenMap → List TweetResult → Except String SeenMap × List String
  | seen, [] => (.ok seen, [])
  | seen, t :: ts =>
    if isStale now t.createdAt then
      processMonitorLoop thresholdLikes now enrichKey enrich sink seen ts
    else
      let isSeen := (objLookup seen t.id).isSome
      let prevStats := (objLookup seen t.id).getD emptyStats
      let shouldAlert := if isSeen then seenShouldAlert thresholdLikes prevStats t else true
      let delivery : Except String Unit :=
        if shouldAlert then
          let toPost := if enrichKey then (match enrich t with
            | .ok e => e
            | .error _ => t) else t
          sink toPost
        else .ok ()
      match delivery with
      | .error e => (.error e, [])
      | .ok _ =>
        let seen2 := objInsert seen t.id (updatedEntry now t)
        let rest := processMonitorLoop thresholdLikes now enrichKey enrich sink seen2 ts
        (rest.1, (if shouldAlert then [t.id] else []) ++ rest.2)

/-! ## Mirror fetcher (`nitterSearch.ts`, `fetchHtmlWithFallback`) -/

/-- Boolean test that `pat` is an initial segment of `l`. -/
def leadsWith : List Char → List Char → Bool
  | [], _ => true
  | _ :: _, [] => false
  | p :: ps, c :: cs => p == c && leadsWith ps cs

/-- Boolean test that `pat` occurs contiguously inside `l`. -/
def containsSeq (pat : List Char) : List Char → Bool
  | [] => pat.isEmpty
  | c :: cs => leadsWith pat (c :: cs) || containsSeq pat cs

/-- JavaScript `s.includes(pat)` on strings. -/
def strContains (s pat : String) : Bool := containsSeq pat.data s.data

/-- ASCII lower-casing of one character. -/
def asciiLower (c : Char) : Char :=
  if 'A' ≤ c && c ≤ 'Z' then Char.ofNat (c.toNat + 32) else c

/-- The regex `^https?:\/\/` with the `i` flag from the source: the input
is an absolute URL exactly when it starts with `http://` or `https://`,
case-insensitively. -/
def isHttpAbsolute (s : String) : Bool :=
  let l := s.data.map asciiLower
  leadsWith ("http://".data) l || leadsWith ("https://".data) l

/-- JavaScript `s.startsWith("/")`. -/
def startsWithSlash (s : String) : Bool :=
  match s.data with
  | [] => false
  | c :: _ => c == '/'

/-- `cleanInstances` from `nitterSearch.ts`: trim each mirror address,
drop empty ones, strip trailing slashes. -/
def cleanInstances (instances : List String) : List String :=
  ((instances.map jsTrim).filter (fun s => s ≠ "")).map
    (fun s => String.mk ((s.data.reverse.dropWhile (fun c => c = '/')).reverse))

/-- The request URL built per mirror: an absolute input is used verbatim
(the mirror base is ignored); a relative path is appended to the base,
with a slash inserted when missing. -/
def requestUrl (isAbs : Bool) (pathOrUrl base : String) : String :=
  if isAbs then pathOrUrl
  else base ++ (if startsWithSlash pathOrUrl then "" else "/") ++ pathOrUrl

/-- Fetch options from `nitterSearch.ts` (`FetchOptions`); the timeout
only bounds one attempt and plays no further role in the pure model. -/
structure FetchOptions where
  instances : List String
  timeoutMs : Nat
  retriesPerInstance : Nat

/-- One network attempt either yields an HTTP response (status, body and
final URL after redirects) or a transport error (including timeout
aborts, which surface as a thrown error). -/
inductive TransportResult where
  | response (ok : Bool) (status : Nat) (statusText : String) (body : String) (finalUrl : String)
  | netError (msg : String)

/-- The per-attempt checks of `fetchHtmlWithFallback`: a non-ok status,
a body shorter than 100 bytes, or a body containing the
`Verifying your browser` challenge marker each throw; otherwise the body
and final URL are returned. -/
def evalAttempt : TransportResult → Except String (String × String)
  | .netError m => .error m
  | .response ok status statusText body finalUrl =>
    if !ok then .error ("HTTP " ++ toString status ++ " " ++ statusText)
    else if body.length < 100 then
      .error ("Empty or invalid response (" ++ toString body.length ++ " bytes)")
    else if strContains body "Verifying your browser" then
      .error "Got 'Verifying your browser' challenge"
    else .ok (body, finalUrl)

/-- Whether an attempt outcome fails the per-attempt checks. -/
def attemptFails (t : TransportResult) : Bool :=
  match evalAttempt t with
  | .error _ => true
  | .ok _ => false

/-- Successful fetch payload: `{html, instanceUsed, finalUrl}`. -/
structure FetchResult where
  html : String
  instanceUsed : String
  finalUrl : String
deriving Repr, DecidableEq

/-- One request actually issued on the network, identified by the index
of the mirror in the cleaned list, the attempt number on that mirror,
and the URL requested. -/
structure RequestLog where
  mirrorIdx : Nat
  attemptIdx : Nat
  url : String
deriving Repr, DecidableEq

/-- The inner retry loop of `fetchHtmlWithFallback` for one mirror: up to
`remaining` attempts starting at attempt number `attempt`, with the
backoff sleeps dropped from the pure model.  The network is an oracle
`net mirrorIdx attemptIdx`.  Returns the first success (if any), the
requests issued, and the final `lastError`. -/
def tryAttempts (net : Nat → Nat → TransportResult) (mi : Nat) (base url : String) :
    Nat → Nat → Option String → Option FetchResult × (List RequestLog × Option String)
  | _, 0, lastErr => (none, ([], lastErr))
  | attempt, remaining + 1, lastErr =>
    match evalAttempt (net mi attempt) with
    | .ok (html, finalUrl) => (some ⟨html, base, finalUrl⟩, ([⟨mi, attempt, url⟩], lastErr))
    | .error e =>
      match tryAttempts net mi base url (attempt + 1) remaining (some e) with
      | (res, (log, le)) => (res, (⟨mi, attempt, url⟩ :: log, le))

/-- The outer mirror loop of `fetchHtmlWithFallback`: mirrors are tried
in order, each with `retries + 1` attempts; the first mirror with a
plausible document wins and later mirrors are not contacted. -/
def tryMirrors (net : Nat → Nat → TransportResult) (pathOrUrl : String) (isAbs : Bool)
    (retries : Nat) :
    List String → Nat → Option String → Option FetchResult × (List RequestLog × Option String)
  | [], _, lastErr => (none, ([], lastErr))
  | base :: rest, mi, lastErr =>
    match tryAttempts net mi base (requestUrl isAbs pathOrUrl base) 0 (retries + 1) lastErr with
    | (some res, tail) => (some res, tail)
    | (none, (log, le)) =>
      match tryMirrors net pathOrUrl isAbs retries rest (mi + 1) le with
      | (res2, (log2, le2)) => (res2, (log ++ log2, le2))

/-- `fetchHtmlWithFallback` from `nitterSearch.ts`, instrumented with the
list of requests issued.  An empty cleaned mirror list is the
configuration error; exhaustion of all mirrors throws the
`All Nitter instances failed` error carrying the most recent underlying
error message. -/
def fetchHtmlWithFallback (net : Nat → Nat → TransportResult) (pathOrUrl : String)
    (opts : FetchOptions) : Except String FetchResult × List RequestLog :=
  let instances := cleanInstances opts.instances
  if instances.isEmpty then
    (.error "No Nitter instances provided. Set NITTER_INSTANCES in .env or pass --instances", [])
  else
    match tryMirrors net pathOrUrl (isHttpAbsolute pathOrUrl) opts.retriesPerInstance instances 0 none with
    | (some res, (log, _)) => (.ok res, log)
    | (none, (log, le)) =>
      (.error ("All Nitter instances failed. Last error: " ++
        (le.getD "Unknown error: undefined")), log)

/-! ## Search aggregator (`nitterSearch.ts`, `searchNitterGlobal`) -/

/-- `SearchResponse` from `nitterSearch.ts`. -/
structure SearchResponse where
  query : String
  instanceUsed : String
  fetchedAt : String
  results : List TweetResult
  error : Option String
deriving Repr, DecidableEq

/-- The inner per-page accumulation loop of `searchNitterGlobal`: stop at
`limit`, skip a tweet whose id is already in the accumulator, otherwise
append it. -/
def addTweets (limit : Nat) : List TweetResult → List TweetResult → List TweetResult
  | results, [] => results
  | results, t :: ts =>
    if limit ≤ results.length then results
    else if results.any (fun r => r.id == t.id) then addTweets limit results ts
    else addTweets limit (results ++ [t]) ts

/-- The page loop of `searchNitterGlobal`.  `fuel` is the remaining page
budget of the hard `page < 10` guard.  The HTML extractor and the
continuation extractor are third-party-markup parsers and enter the
model as oracles `extractT html instanceUsed` and `extractSM html`; the
network enters through `fetchHtmlWithFallback` with a per-path oracle
`net`.  Returns the accumulated results, the instance used for the last
fetch, the error captured by the surrounding `try`/`catch` (if any), and
the list of page paths actually fetched.  A fetch failure is caught and
converted into the partial-result error message; the empty-string check
on the continuation mirrors JavaScript truthiness. -/
def searchLoop (net : String → Nat → Nat → TransportResult)
    (extractT : String → String → List TweetResult) (extractSM : String → Option String)
    (opts : FetchOptions) (limit : Nat) :
    Nat → Option String → List TweetResult → String →
    List TweetResult × String × Option String × List String
  | 0, _, results, inst => (results, inst, none, [])
  | _ + 1, none, results, inst => (results, inst, none, [])
  | fuel + 1, some p, results, inst =>
    if p = "" then (results, inst, none, [])
    else if limit ≤ results.length then (results, inst, none, [])
    else
      match (fetchHtmlWithFallback (net p) p opts).1 with
      | .error e =>
        (results, inst,
          some ("Failed after fetching " ++ toString results.length ++ " results: " ++ e), [p])
      | .ok fr =>
        let pageTweets := extractT fr.html fr.instanceUsed
        let results2 := addTweets limit results pageTweets
        let nextPath2 := if results2.length < limit then extractSM fr.html else none
        let r := searchLoop net extractT extractSM opts limit fuel nextPath2 results2 fr.instanceUsed
        (r.1, r.2.1, r.2.2.1, p :: r.2.2.2)

/-- `searchNitterGlobal` from `nitterSearch.ts`, instrumented with the
list of page paths fetched.  `enc` models `encodeURIComponent` and
`nowIso` models `new Date().toISOString()`.  The final `instanceUsed`
falls back to the first cleaned mirror, then to the empty string, via
JavaScript `||`. -/
def searchNitterGlobal (net : String → Nat → Nat → TransportResult)
    (extractT : String → String → List TweetResult) (extractSM : String → Option String)
    (enc : String → String) (nowIso : String) (query : String) (limit : Nat)
    (opts : FetchOptions) : SearchResponse × List String :=
  let firstPath := "/search?f=tweets&q=" ++ enc query
  let r := searchLoop net extractT extractSM opts limit 10 (some firstPath) [] ""
  let instanceUsed := if r.2.1 = "" then ((cleanInstances opts.instances).headD "") else r.2.1
  (⟨query, instanceUsed, nowIso, r.1, r.2.2.1⟩, r.2.2.2)

/-! ## Scheduler (`worker.ts`, `run`) -/

/-- Start time of the k-th interval-driven invocation of the scheduler
callback.  Modelled from the source: after the initial awaited run
finishes at `t0`, `setInterval` fires the async callback every `p`
milliseconds.  `setInterval` does not await the promise returned by the
previous invocation, so invocation `k` starts at `t0 + (k + 1) * p`
whether or not earlier invocations have completed (the callback time is
spent suspended at awaits, during which the timer can fire). -/
def invocationStart (t0 p k : Nat) : Nat := t0 + (k + 1) * p

/-- Invocation `k` of the interval callback is busy at time `t`:
`await doPoll()` runs for `dp` milliseconds, then `await doVipCheck()`
runs for `dv` milliseconds. -/
def callbackBusy (t0 p dp dv k t : Nat) : Prop :=
  invocationStart t0 p k ≤ t ∧ t < invocationStart t0 p k + (dp + dv)

/-- The monitor-poll phase of invocation `k` is busy at time `t`. -/
def pollBusy (t0 p dp k t : Nat) : Prop :=
  invocationStart t0 p k ≤ t ∧ t < invocationStart t0 p k + dp

/-- The VIP-check phase of invocation `k` is busy at time `t`. -/
def vipBusy (t0 p dp dv k t : Nat) : Prop :=
  invocationStart t0 p k + dp ≤ t ∧ t < invocationStart t0 p k + dp + dv

/-- Two distinct invocations of the poll job are simultaneously busy. -/
def pollsOverlap (t0 p dp : Nat) : Prop :=
  ∃ j k t, j ≠ k ∧ pollBusy t0 p dp j t ∧ pollBusy t0 p dp k t

/-! ## State migration (`worker.ts`, `loadState`) -/

/-- The three persisted shapes `loadState` recognizes: the legacy
`lastIds: monitorKey -> seenIds[]` shape, the legacy nested
`seenTweets: monitorKey -> (tweetId -> TweetStats)` shape, and the
current flat `seenTweets: tweetId -> TweetStats` shape. -/
inductive RawState where
  | legacyIds (lastIds : List (String × List String))
  | legacyNested (seenTweets : List (String × List (String × TweetStats)))
  | flat (seenTweets : List (String × TweetStats))
deriving Repr, DecidableEq

/-- Outcome of the migration logic: either a flat `seenTweets` record, or
the parsed object returned unchanged while still nested (this happens
only when the `'likes' in firstVal` sniff misfires because a tweet id in
the first nested map is literally the string `likes`). -/
inductive MigrationResult where
  | flatState (seenTweets : List (String × TweetStats))
  | rawNested (seenTweets : List (String × List (String × TweetStats)))
deriving Repr, DecidableEq

/-- The synthetic entry assigned to ids migrated from the `lastIds`
shape: `likes: 0, retweets: 0, replies: 0, lastChecked: Date.now()`. -/
def migrateDummy (now : Int) : TweetStats := ⟨0, 0, 0, now⟩

/-- Migration of the `lastIds` shape: every id in every monitor list gets
a synthetic zero-valued entry so it is not immediately re-alerted. -/
def flattenIds (now : Int) (lastIds : List (String × List String)) :
    List (String × TweetStats) :=
  lastIds.foldl (fun acc kv =>
    kv.2.foldl (fun a id => objInsert a id (migrateDummy now)) acc) []

/-- Migration of the nested shape: flatten by union over monitor keys,
last write wins on duplicate tweet ids. -/
def flattenNested (m : List (String × List (String × TweetStats))) :
    List (String × TweetStats) :=
  m.foldl (fun acc kv =>
    kv.2.foldl (fun a tkv => objInsert a tkv.1 tkv.2) acc) []

/-- The shape sniff of `loadState` on a `seenTweets` record whose values
are nested maps: with no keys the parsed object is returned unchanged,
otherwise the object is treated as already flat exactly when the first
value has a property named `likes` (for a nested map that means one of
its tweet ids is the literal string `likes`). -/
def nestedLooksFlat (m : List (String × List (String × TweetStats))) : Bool :=
  match m with
  | [] => true
  | (_, firstVal) :: _ => firstVal.any (fun kv => kv.1 == "likes")

/-- The migration logic inside `loadState`: a truthy `lastIds` field
selects the first legacy branch; otherwise the `seenTweets` values are
sniffed via `'likes' in firstVal`.  A genuinely flat state is returned
unchanged, because every `TweetStats` value owns a `likes` property (and
an empty record short-circuits to returning the parsed object). -/
def migrate (now : Int) : RawState → MigrationResult
  | .legacyIds l => .flatState (flattenIds now l)
  | .legacyNested m =>
    if nestedLooksFlat m then .rawNested m else .flatState (flattenNested m)
  | .flat s => .flatState s

/-- Re-reading a migration result from disk produces the corresponding
raw shape: a flat state parses as the flat shape, and a still-nested
object parses as the nested shape again. -/
def migrationToRaw : MigrationResult → RawState
  | .flatState s => .flat s
  | .rawNested m => .legacyNested m

/-! ## Spec-side predicates and concrete fixtures -/

/-- The growth conditions as the specification states them: like-count
known and at or above the floor, strictly above the stored count, a
relative increase of at least 50% of the stored value (a stored zero
treated as one), and an absolute increase of at least 5. -/
def specGrowthConds (floorLikes prevLikes : Int) (likes : Option Int) : Prop :=
  ∃ cur, likes = some cur ∧ floorLikes ≤ cur ∧ prevLikes < cur ∧
    TRACTION_GROWTH_PERCENT * ((jsOrOne prevLikes : Int) : ℚ) ≤ ((cur - prevLikes : Int) : ℚ) ∧
    (5 : Int) ≤ cur - prevLikes

/-- A fresh tweet with 12 likes. -/
def exTweetA : TweetResult :=
  ⟨"a", "https://x.com/u/status/a", "hello a", none, none, none, none, none, none, some 12⟩

/-- A fresh tweet with 7 likes. -/
def exTweetB : TweetResult :=
  ⟨"b", "https://x.com/u/status/b", "hello b", none, none, none, none, none, none, some 7⟩

/-- A tweet whose like counter failed to parse (unknown). -/
def exTweetNoLikes : TweetResult :=
  ⟨"x", "https://x.com/u/status/x", "hello x", none, none, none, none, none, none, none⟩

/-- The same tweet with a like counter of exactly zero. -/
def exTweetZeroLikes : TweetResult := { exTweetNoLikes with likes := some 0 }

/-- The same tweet observed with 14 likes. -/
def exTweet14 : TweetResult := { exTweetNoLikes with likes := some 14 }

/-- The same tweet observed with 16 likes. -/
def exTweet16 : TweetResult := { exTweetNoLikes with likes := some 16 }

/-- A state with one entry for tweet `x`, last seen with 10 likes. -/
def exSeenTen : SeenMap := [("x", ⟨10, 2, 1, 0⟩)]

/-- A sink that rejects the alert for tweet `a` and accepts the rest. -/
def exFailSink (t : TweetResult) : Except String Unit :=
  if t.id == "a" then .error "Discord webhook failed: 500 Internal Server Error - x" else .ok ()

/-- A sink that delivers every alert. -/
def exOkSink (_ : TweetResult) : Except String Unit := .ok ()

/-- The identity enrichment oracle. -/
def exOkEnrich (t : TweetResult) : Except String TweetResult := .ok t

/-! ## Theorems -/

/-- C8: state migration is idempotent.  For each of the three persisted
shapes, migrating the result of a migration (re-read from disk) equals
the single migration, and migrating an already-flat state returns that
state unchanged. -/
theorem migrate_idempotent :
    (∀ now now2 r, migrate now2 (migrationToRaw (migrate now r)) = migrate now r)
    ∧ (∀ now s, migrate now (RawState.flat s) = MigrationResult.flatState s) := by
  constructor
  · intro now now2 r
    cases r with
    | legacyIds l => rfl
    | legacyNested m =>
      by_cases h : nestedLooksFlat m = true
      · simp [migrate, migrationToRaw, h]
      · simp [migrate, migrationToRaw, h]
    | flat s => rfl
  · intro now s
    rfl

/-- C9 counterexample: with a polling interval of 1 unit and a cycle
duration of 2 units, interval invocations 0 and 1 of the monitor-poll
job are both busy at time 2, so two runs of the same job do overlap when
a run takes longer than the polling interval — `setInterval` fires on
the timer without awaiting the previous async callback. -/
theorem scheduler_overlap_cex : pollsOverlap 0 1 2 := by
  refine ⟨0, 1, 2, by decide, ?_, ?_⟩
  · constructor
    · simp [invocationStart]
    · simp [invocationStart]
  · constructor
    · simp [invocationStart]
    · simp [invocationStart]

/-- C9 amended: within one timer-callback invocation the VIP-check phase
starts only after the monitor-poll phase has been awaited to completion,
and two distinct invocations never overlap provided the whole callback
(poll plus VIP check) finishes within the polling interval; without that
proviso overlap is possible (see the counterexample). -/
theorem scheduler_no_overlap_when_cycle_fits :
    (∀ t0 p dp dv j k t, dp + dv ≤ p → j ≠ k →
      ¬(callbackBusy t0 p dp dv j t ∧ callbackBusy t0 p dp dv k t))
    ∧ (∀ t0 p dp dv k t, ¬(pollBusy t0 p dp k t ∧ vipBusy t0 p dp dv k t)) := by
  constructor
  · intro t0 p dp dv j k t hfit hne
    rintro ⟨⟨hj1, hj2⟩, ⟨hk1, hk2⟩⟩
    unfold invocationStart at hj1 hj2 hk1 hk2
    rcases Nat.lt_or_ge j k with hlt | hge
    · have hmul : (j + 2) * p ≤ (k + 1) * p :=
        Nat.mul_le_mul_right p (by omega)
      have hexp : (j + 2) * p = (j + 1) * p + p := by ring
      linarith
    · have hlt : k < j := Nat.lt_of_le_of_ne hge (fun h => hne h.symm)
      have hmul : (k + 2) * p ≤ (j + 1) * p :=
        Nat.mul_le_mul_right p (by omega)
      have hexp : (k + 2) * p = (k + 1) * p + p := by ring
      linarith
  · intro t0 p dp dv k t
    rintro ⟨⟨_, hp2⟩, ⟨hv1, _⟩⟩
    exact Nat.lt_irrefl t (Nat.lt_of_lt_of_le hp2 hv1)

/-- C9 amended witness at concrete parameters. -/
theorem scheduler_no_overlap_when_cycle_fits_witness :
    ¬(callbackBusy 0 2 1 1 0 5 ∧ callbackBusy 0 2 1 1 1 5) :=
  scheduler_no_overlap_when_cycle_fits.1 0 2 1 1 0 1 5 (by decide) (by decide)

/-- C3: evaluating `processMonitor` at a cycle containing two alertable
tweets where Discord delivery fails for the first: the uncaught
exception from `postToDiscord` aborts the loop, so the second alert is
never attempted, no delivery happens, and the state update for the
failed tweet (and everything after it) is lost — `saveState` is never
reached in that cycle.  The second conjunct shows the same cycle with a
healthy sink for contrast: both alerts delivered and both entries
written. -/
theorem delivery_failure_aborts_cycle :
    processMonitorLoop 5 0 false exOkEnrich exFailSink [] [exTweetA, exTweetB]
      = (.error "Discord webhook failed: 500 Internal Server Error - x", [])
    ∧ processMonitorLoop 5 0 false exOkEnrich exOkSink [] [exTweetA, exTweetB]
      = (.ok [("a", ⟨12, 0, 0, 0⟩), ("b", ⟨7, 0, 0, 0⟩)], ["a", "b"]) :=
  ⟨rfl, rfl⟩

/-- C2 counterexample: against a stored entry with 10 likes, a record
whose like counter is unknown and a record whose like counter is exactly
zero are processed identically by the Monitor Engine — same
classification outcome, same delivered alerts, and the same stored
entry, whose like counter is 0 in both cases.  The engine computes
`tweet.likes || 0`, so unknown is coerced to zero. -/
theorem unknown_likes_not_distinguished_cex :
    processMonitorLoop 5 0 false exOkEnrich exOkSink exSeenTen [exTweetNoLikes]
      = processMonitorLoop 5 0 false exOkEnrich exOkSink exSeenTen [exTweetZeroLikes]
    ∧ updatedEntry 0 exTweetNoLikes = updatedEntry 0 exTweetZeroLikes
    ∧ (updatedEntry 0 exTweetNoLikes).likes = 0 := by
  refine ⟨rfl, rfl, rfl⟩

/-- C2 amended: the extractor's `parseCount` does keep an absent, empty,
or unparseable counter as unknown (never zero), but the Monitor Engine
then coerces an unknown counter to zero, both in the classification
comparison and in the counters stored into the entry, so classification
and storage treat an unknown like-count exactly like a like-count of
zero. -/
theorem unknown_counters_coerced_to_zero :
    (parseCount none = none ∧ parseCount (some "") = none ∧ parseCount (some " ") = none
      ∧ parseCount (some "N/A") = none ∧ parseCount (some "1,234") = some 1234)
    ∧ (∀ thr prev t now, t.likes = none →
        seenShouldAlert thr prev t = seenShouldAlert thr prev { t with likes := some 0 }
        ∧ updatedEntry now t = updatedEntry now { t with likes := some 0 }) := by
  refine ⟨⟨by decide, by decide, by decide, by decide, by decide⟩, ?_⟩
  intro thr prev t now h
  constructor
  · simp [seenShouldAlert, classifyGrowth, h, jsOrZero]
  · simp [updatedEntry, h, jsOrZero]

/-- Helper: over a non-negative stored count, `p || 1` is positive. -/
theorem jsOrOne_cast_pos (p : Int) (hp : 0 ≤ p) : (0 : ℚ) < ((jsOrOne p : Int) : ℚ) := by
  have h1 : (1 : Int) ≤ jsOrOne p := by
    unfold jsOrOne
    by_cases h : p = 0
    · simp [h]
    · simp only [if_neg h]
      omega
  exact_mod_cast lt_of_lt_of_le Int.zero_lt_one h1

/-- Concrete fact: a move from 10 to 14 likes is below the 50% bar. -/
theorem classifyGrowth_ten_fourteen : classifyGrowth 5 10 (some 14) = false := by
  norm_num [classifyGrowth, jsOrZero, jsOrOne, TRACTION_GROWTH_PERCENT]

/-- Concrete fact: a move from 10 to 16 likes passes every bar. -/
theorem classifyGrowth_ten_sixteen : classifyGrowth 5 10 (some 16) = true := by
  norm_num [classifyGrowth, jsOrZero, jsOrOne, TRACTION_GROWTH_PERCENT]

/-- C1: with the default floor of 5, the engine's growth test for a
record with a stored entry agrees exactly with the specified conditions
(like-count known and at least the floor, strictly above the stored
count, relative increase at least 50% of the stored value with zero
treated as one, absolute increase at least 5); the spec's worked
examples hold, and the engine emits no alert for the 10-to-14 record
while alerting for the 10-to-16 record. -/
theorem growth_classification_matches_spec :
    (∀ prevLikes likes, 0 ≤ prevLikes →
      (classifyGrowth 5 prevLikes likes = true ↔ specGrowthConds 5 prevLikes likes))
    ∧ classifyGrowth 5 10 (some 14) = false
    ∧ classifyGrowth 5 10 (some 16) = true
    ∧ (processMonitorLoop 5 0 false exOkEnrich exOkSink exSeenTen [exTweet14]).2 = []
    ∧ (processMonitorLoop 5 0 false exOkEnrich exOkSink exSeenTen [exTweet16]).2 = ["x"] := by
  refine ⟨?_, classifyGrowth_ten_fourteen, classifyGrowth_ten_sixteen, ?_, ?_⟩
  · intro p l hp
    have hpos := jsOrOne_cast_pos p hp
    constructor
    · intro h
      simp only [classifyGrowth, Bool.and_eq_true, decide_eq_true_eq] at h
      obtain ⟨h1, h2, h3⟩ := h
      cases l with
      | none =>
        exfalso
        simp only [jsOrZero] at h3
        omega
      | some cur =>
        simp only [jsOrZero] at h1 h2 h3
        refine ⟨cur, rfl, h1, by omega, ?_, h3⟩
        exact (le_div_iff₀ hpos).mp h2
    · rintro ⟨cur, rfl, h1, hlt, h2, h3⟩
      simp only [classifyGrowth, Bool.and_eq_true, decide_eq_true_eq, jsOrZero]
      exact ⟨h1, (le_div_iff₀ hpos).mpr h2, h3⟩
  · simp [processMonitorLoop, isStale, objLookup, List.find?, exSeenTen, exTweet14,
      exTweetNoLikes, seenShouldAlert, exOkSink, classifyGrowth_ten_fourteen]
  · simp [processMonitorLoop, isStale, objLookup, List.find?, exSeenTen, exTweet16,
      exTweetNoLikes, seenShouldAlert, exOkSink, classifyGrowth_ten_sixteen]

/-- C1 witness: the equivalence applied at the stored count 10 and the
incoming count 16. -/
theorem growth_classification_matches_spec_witness :
    (0 : Int) ≤ 10
    ∧ (classifyGrowth 5 10 (some 16) = true ↔ specGrowthConds 5 10 (some 16)) :=
  ⟨by decide, growth_classification_matches_spec.1 10 (some 16) (by decide)⟩

/-- C2 amended witness at a concrete unknown-likes tweet. -/
theorem unknown_counters_coerced_to_zero_witness :
    seenShouldAlert 5 emptyStats exTweetNoLikes
      = seenShouldAlert 5 emptyStats { exTweetNoLikes with likes := some 0 }
    ∧ updatedEntry 0 exTweetNoLikes = updatedEntry 0 { exTweetNoLikes with likes := some 0 } :=
  unknown_counters_coerced_to_zero.2 5 emptyStats exTweetNoLikes 0 rfl

/-- A plausible page body: long enough to pass the 100-byte check and
free of the challenge marker. -/
def pageBody (tag : String) : String := tag ++ String.mk (List.replicate 120 'a')

/-- A single healthy mirror. -/
def exOpts : FetchOptions := ⟨["https://m1.example"], 10000, 1⟩

/-- A two-page source: the first page links to `/p2`, the second ends. -/
def exNetTwoPages (p : String) (_ _ : Nat) : TransportResult :=
  .response true 200 "OK" (if p = "/p2" then pageBody "q" else pageBody "p") p

/-- Extractor for the two-page source: tweet `a` on page one, tweets `a`
and `b` on page two — the same identifier on two consecutive pages. -/
def exExtractTwoPages (html : String) (_ : String) : List TweetResult :=
  if html = pageBody "p" then [exTweetA] else [exTweetA, exTweetB]

/-- Continuation for the two-page source. -/
def exShowMoreTwoPages (html : String) : Option String :=
  if html = pageBody "p" then some "/p2" else none

/-- A source whose every page is healthy, contains no tweets, and whose
continuation always points back to the page `/loop` fetched before. -/
def exNetLoop (_ : String) (_ _ : Nat) : TransportResult :=
  .response true 200 "OK" (pageBody "loop") "https://m1.example/l"

/-- Extractor returning no tweets. -/
def exExtractNone (_ _ : String) : List TweetResult := []

/-- Continuation always pointing back to `/loop`. -/
def exShowMoreLoop (_ : String) : Option String := some "/loop"

/-- The accumulation loop preserves distinctness of identifiers: a tweet
is appended only when no accumulated tweet has its identifier. -/
theorem addTweets_pairwise (limit : Nat) :
    ∀ ts results, results.Pairwise (fun a b : TweetResult => a.id ≠ b.id) →
      (addTweets limit results ts).Pairwise (fun a b : TweetResult => a.id ≠ b.id) := by
  intro ts
  induction ts with
  | nil =>
    intro results h
    exact h
  | cons t ts ih =>
    intro results h
    simp only [addTweets]
    split
    · exact h
    · split
      · exact ih results h
      · rename_i hany
        apply ih
        rw [List.pairwise_append]
        refine ⟨h, List.pairwise_singleton _ _, ?_⟩
        intro a ha b hb
        rw [List.mem_singleton] at hb
        subst hb
        intro he
        exact hany (List.any_eq_true.mpr ⟨a, ha, by simp [he]⟩)

/-- The page loop preserves distinctness of identifiers. -/
theorem searchLoop_pairwise (net : String → Nat → Nat → TransportResult)
    (extractT : String → String → List TweetResult) (extractSM : String → Option String)
    (opts : FetchOptions) (limit : Nat) :
    ∀ fuel np results inst, results.Pairwise (fun a b : TweetResult => a.id ≠ b.id) →
      (searchLoop net extractT extractSM opts limit fuel np results inst).1.Pairwise
        (fun a b : TweetResult => a.id ≠ b.id) := by
  intro fuel
  induction fuel with
  | zero =>
    intro np results inst h
    exact h
  | succ n ih =>
    intro np results inst h
    cases np with
    | none => exact h
    | some p =>
      simp only [searchLoop]
      split
      · exact h
      · split
        · exact h
        · split
          · exact h
          · exact ih _ _ _ (addTweets_pairwise limit _ _ h)

/-- The page loop fetches at most as many pages as it has fuel. -/
theorem searchLoop_paths_le_fuel (net : String → Nat → Nat → TransportResult)
    (extractT : String → String → List TweetResult) (extractSM : String → Option String)
    (opts : FetchOptions) (limit : Nat) :
    ∀ fuel np results inst,
      (searchLoop net extractT extractSM opts limit fuel np results inst).2.2.2.length ≤ fuel := by
  intro fuel
  induction fuel with
  | zero =>
    intro np results inst
    simp [searchLoop]
  | succ n ih =>
    intro np results inst
    cases np with
    | none => simp [searchLoop]
    | some p =>
      simp only [searchLoop]
      split
      · simp
      · split
        · simp
        · split
          · simp
          · simpa using Nat.succ_le_succ (ih _ _ _)

set_option maxRecDepth 8000 in
/-- C6: every search run returns pairwise-distinct identifiers — a tweet
whose identifier is already in the run's accumulator is never appended
again; and on the concrete two-page source that repeats identifier `a`
across consecutive pages, the run yields `a` exactly once. -/
theorem search_results_unique_ids :
    (∀ net extractT extractSM enc nowIso q limit opts,
      (searchNitterGlobal net extractT extractSM enc nowIso q limit opts).1.results.Pairwise
        (fun a b : TweetResult => a.id ≠ b.id))
    ∧ (searchNitterGlobal exNetTwoPages exExtractTwoPages exShowMoreTwoPages (fun s => s)
        "2026-01-01T00:00:00.000Z" "foo" 3 exOpts).1.results.map (fun t => t.id) = ["a", "b"] := by
  constructor
  · intro net extractT extractSM enc nowIso q limit opts
    exact searchLoop_pairwise net extractT extractSM opts limit 10 _ [] "" List.Pairwise.nil
  · rfl

set_option maxRecDepth 8000 in
/-- C7: the page loop of a search run never fetches more than 10 pages,
for every source; and on the concrete source whose continuation always
points back to the already-fetched page `/loop`, the run stops at
exactly 10 pages and returns the accumulated (empty) results with no
error rather than raising. -/
theorem search_page_ceiling :
    (∀ net extractT extractSM enc nowIso q limit opts,
      (searchNitterGlobal net extractT extractSM enc nowIso q limit opts).2.length ≤ 10)
    ∧ (searchNitterGlobal exNetLoop exExtractNone exShowMoreLoop (fun s => s)
        "2026-01-01T00:00:00.000Z" "foo" 50 exOpts).2.length = 10
    ∧ (searchNitterGlobal exNetLoop exExtractNone exShowMoreLoop (fun s => s)
        "2026-01-01T00:00:00.000Z" "foo" 50 exOpts).1.error = none
    ∧ (searchNitterGlobal exNetLoop exExtractNone exShowMoreLoop (fun s => s)
        "2026-01-01T00:00:00.000Z" "foo" 50 exOpts).1.results = [] := by
  refine ⟨?_, rfl, rfl, rfl⟩
  intro net extractT extractSM enc nowIso q limit opts
  exact searchLoop_paths_le_fuel net extractT extractSM opts limit 10 _ [] ""

/-- A network that refuses every connection. -/
def exNetDown (_ : String) (_ _ : Nat) : TransportResult :=
  .netError "connect ECONNREFUSED"

/-- The page loop either reports no error, or reports exactly the
caught-failure message embedding the length of the partial accumulator
it returns. -/
theorem searchLoop_error_shape (net : String → Nat → Nat → TransportResult)
    (extractT : String → String → List TweetResult) (extractSM : String → Option String)
    (opts : FetchOptions) (limit : Nat) :
    ∀ fuel np results inst,
      (searchLoop net extractT extractSM opts limit fuel np results inst).2.2.1 = none
      ∨ ∃ u, (searchLoop net extractT extractSM opts limit fuel np results inst).2.2.1
          = some ("Failed after fetching "
            ++ toString (searchLoop net extractT extractSM opts limit fuel np results inst).1.length
            ++ " results: " ++ u) := by
  intro fuel
  induction fuel with
  | zero =>
    intro np results inst
    left
    rfl
  | succ n ih =>
    intro np results inst
    cases np with
    | none =>
      left
      rfl
    | some p =>
      simp only [searchLoop]
      split
      · left
        rfl
      · split
        · left
          rfl
        · split
          · rename_i e heq
            right
            exact ⟨e, rfl⟩
          · exact ih _ _ _

/-- C5: a search never raises past the aggregator boundary — it is a
total function into `SearchResponse` — and whenever its result carries
an error, that error is the caught mid-loop fetch failure, formatted
with the number of records collected before the failure, which equals
the length of the partial result list actually returned. -/
theorem search_failure_returns_partial :
    ∀ net extractT extractSM enc nowIso q limit opts emsg,
      (searchNitterGlobal net extractT extractSM enc nowIso q limit opts).1.error = some emsg →
      ∃ u, emsg = "Failed after fetching "
        ++ toString (searchNitterGlobal net extractT extractSM enc nowIso q limit
            opts).1.results.length
        ++ " results: " ++ u := by
  intro net extractT extractSM enc nowIso q limit opts emsg h
  simp only [searchNitterGlobal] at h ⊢
  rcases searchLoop_error_shape net extractT extractSM opts limit 10
      (some ("/search?f=tweets&q=" ++ enc q)) [] "" with hn | ⟨u, hu⟩
  · rw [hn] at h
    exact absurd h (by simp)
  · rw [hu] at h
    exact ⟨u, (Option.some_injective _ h).symm⟩

/-- C5 witness: a run against a network refusing every connection
returns zero records and the matching error message. -/
theorem search_failure_returns_partial_witness :
    ∃ u,
      "Failed after fetching 0 results: All Nitter instances failed. Last error: connect ECONNREFUSED"
        = "Failed after fetching "
          ++ toString (searchNitterGlobal exNetDown exExtractNone exShowMoreLoop (fun s => s)
              "2026-01-01T00:00:00.000Z" "foo" 50 exOpts).1.results.length
          ++ " results: " ++ u :=
  search_failure_returns_partial exNetDown exExtractNone exShowMoreLoop (fun s => s)
    "2026-01-01T00:00:00.000Z" "foo" 50 exOpts _ rfl


/-- The retry loop issues at most as many requests as it has attempts. -/
theorem tryAttempts_len (net : Nat → Nat → TransportResult) (mi : Nat) (base url : String) :
    ∀ rem attempt le, (tryAttempts net mi base url attempt rem le).2.1.length ≤ rem := by
  intro rem
  induction rem with
  | zero =>
    intro attempt le
    exact Nat.le_refl 0
  | succ n ih =>
    intro attempt le
    simp only [tryAttempts]
    cases h : evalAttempt (net mi attempt) with
    | ok v =>
      cases v with
      | mk html finalUrl => simp
    | error e =>
      simpa using ih (attempt + 1) (some e)

/-- Every request issued by the retry loop targets its own mirror index
and its own URL. -/
theorem tryAttempts_mem (net : Nat → Nat → TransportResult) (mi : Nat) (base url : String) :
    ∀ rem attempt le x, x ∈ (tryAttempts net mi base url attempt rem le).2.1 →
      x.mirrorIdx = mi ∧ x.url = url := by
  intro rem
  induction rem with
  | zero =>
    intro attempt le x hx
    simp [tryAttempts] at hx
  | succ n ih =>
    intro attempt le x hx
    simp only [tryAttempts] at hx
    cases h : evalAttempt (net mi attempt) with
    | ok v =>
      cases v with
      | mk html finalUrl =>
        rw [h] at hx
        simp at hx
        subst hx
        exact ⟨rfl, rfl⟩
    | error e =>
      rw [h] at hx
      simp at hx
      rcases hx with hx | hx
      · subst hx
        exact ⟨rfl, rfl⟩
      · exact ih (attempt + 1) (some e) x hx

/-- When every attempt in its window fails, the retry loop returns no
result and issues exactly one request per attempt. -/
theorem tryAttempts_all_fail (net : Nat → Nat → TransportResult) (mi : Nat) (base url : String) :
    ∀ rem attempt le, (∀ a, attempt ≤ a → a < attempt + rem → attemptFails (net mi a) = true) →
      (tryAttempts net mi base url attempt rem le).1 = none
      ∧ (tryAttempts net mi base url attempt rem le).2.1.length = rem := by
  intro rem
  induction rem with
  | zero =>
    intro attempt le _
    exact ⟨rfl, rfl⟩
  | succ n ih =>
    intro attempt le hfail
    have hthis : attemptFails (net mi attempt) = true :=
      hfail attempt (Nat.le_refl attempt) (by omega)
    cases h : evalAttempt (net mi attempt) with
    | ok v =>
      exfalso
      unfold attemptFails at hthis
      rw [h] at hthis
      exact Bool.false_ne_true hthis
    | error e =>
      simp only [tryAttempts, h]
      have := ih (attempt + 1) (some e) (by intro a h1 h2; exact hfail a (by omega) (by omega))
      simpa using this

/-- Every request issued by the mirror loop targets a mirror index at or
beyond the starting index. -/
theorem tryMirrors_mem_mi (net : Nat → Nat → TransportResult) (pathOrUrl : String)
    (isAbs : Bool) (retries : Nat) :
    ∀ mirrors mi0 le x, x ∈ (tryMirrors net pathOrUrl isAbs retries mirrors mi0 le).2.1 →
      mi0 ≤ x.mirrorIdx := by
  intro mirrors
  induction mirrors with
  | nil =>
    intro mi0 le x hx
    simp [tryMirrors] at hx
  | cons base rest ih =>
    intro mi0 le x hx
    simp only [tryMirrors] at hx
    rcases ha : tryAttempts net mi0 base (requestUrl isAbs pathOrUrl base) 0 (retries + 1) le
      with ⟨res, log, le2⟩
    rw [ha] at hx
    have hlog : ∀ y ∈ log, y.mirrorIdx = mi0 ∧ y.url = requestUrl isAbs pathOrUrl base := by
      intro y hy
      have := tryAttempts_mem net mi0 base (requestUrl isAbs pathOrUrl base) (retries + 1) 0 le y
      rw [ha] at this
      exact this hy
    cases res with
    | some r =>
      simp at hx
      exact Nat.le_of_eq (hlog x hx).1.symm
    | none =>
      simp at hx
      rcases hx with hx | hx
      · exact Nat.le_of_eq (hlog x hx).1.symm
      · exact Nat.le_of_succ_le (ih (mi0 + 1) le2 x hx)

/-- With an absolute input URL, every request issued by the mirror loop
targets that URL verbatim. -/
theorem tryMirrors_mem_url (net : Nat → Nat → TransportResult) (pathOrUrl : String)
    (retries : Nat) :
    ∀ mirrors mi0 le x, x ∈ (tryMirrors net pathOrUrl true retries mirrors mi0 le).2.1 →
      x.url = pathOrUrl := by
  intro mirrors
  induction mirrors with
  | nil =>
    intro mi0 le x hx
    simp [tryMirrors] at hx
  | cons base rest ih =>
    intro mi0 le x hx
    simp only [tryMirrors] at hx
    rcases ha : tryAttempts net mi0 base (requestUrl true pathOrUrl base) 0 (retries + 1) le
      with ⟨res, log, le2⟩
    rw [ha] at hx
    have hlog : ∀ y ∈ log, y.url = pathOrUrl := by
      intro y hy
      have := tryAttempts_mem net mi0 base (requestUrl true pathOrUrl base) (retries + 1) 0 le y
      rw [ha] at this
      exact (this hy).2
    cases res with
    | some r =>
      simp at hx
      exact hlog x hx
    | none =>
      simp at hx
      rcases hx with hx | hx
      · exact hlog x hx
      · exact ih (mi0 + 1) le2 x hx

/-- The mirror loop issues at most `retries + 1` requests against any
single mirror index. -/
theorem tryMirrors_filter_len (net : Nat → Nat → TransportResult) (pathOrUrl : String)
    (isAbs : Bool) (retries : Nat) :
    ∀ mirrors mi0 le mi,
      ((tryMirrors net pathOrUrl isAbs retries mirrors mi0 le).2.1.filter
        (fun x => x.mirrorIdx == mi)).length ≤ retries + 1 := by
  intro mirrors
  induction mirrors with
  | nil =>
    intro mi0 le mi
    simp [tryMirrors]
  | cons base rest ih =>
    intro mi0 le mi
    simp only [tryMirrors]
    rcases ha : tryAttempts net mi0 base (requestUrl isAbs pathOrUrl base) 0 (retries + 1) le
      with ⟨res, log, le2⟩
    have hlen : log.length ≤ retries + 1 := by
      have := tryAttempts_len net mi0 base (requestUrl isAbs pathOrUrl base) (retries + 1) 0 le
      rw [ha] at this
      exact this
    have hlog : ∀ y ∈ log, y.mirrorIdx = mi0 := by
      intro y hy
      have := tryAttempts_mem net mi0 base (requestUrl isAbs pathOrUrl base) (retries + 1) 0 le y
      rw [ha] at this
      exact (this hy).1
    cases res with
    | some r =>
      calc ((log.filter (fun x => x.mirrorIdx == mi)).length)
          ≤ log.length := List.length_filter_le _ _
        _ ≤ retries + 1 := hlen
    | none =>
      simp only [List.filter_append, List.length_append]
      by_cases hmi : mi = mi0
      · have h2 : ((tryMirrors net pathOrUrl isAbs retries rest (mi0 + 1) le2).2.1.filter
            (fun x => x.mirrorIdx == mi)) = [] := by
          rw [List.filter_eq_nil_iff]
          intro y hy
          have h3 := tryMirrors_mem_mi net pathOrUrl isAbs retries rest (mi0 + 1) le2 y hy
          simp only [beq_iff_eq]
          omega
        rw [h2]
        simp only [List.length_nil, Nat.add_zero]
        calc ((log.filter (fun x => x.mirrorIdx == mi)).length)
            ≤ log.length := List.length_filter_le _ _
          _ ≤ retries + 1 := hlen
      · have h1 : (log.filter (fun x => x.mirrorIdx == mi)) = [] := by
          rw [List.filter_eq_nil_iff]
          intro y hy
          have h3 := hlog y hy
          simp only [beq_iff_eq]
          omega
        rw [h1]
        simp only [List.length_nil, Nat.zero_add]
        exact ih (mi0 + 1) le2 mi

/-- When every attempt on every mirror fails, the mirror loop returns no
result and issues exactly `retries + 1` requests per mirror. -/
theorem tryMirrors_all_fail (net : Nat → Nat → TransportResult) (pathOrUrl : String)
    (isAbs : Bool) (retries : Nat) (hfail : ∀ mi a, attemptFails (net mi a) = true) :
    ∀ mirrors mi0 le,
      (tryMirrors net pathOrUrl isAbs retries mirrors mi0 le).1 = none
      ∧ (tryMirrors net pathOrUrl isAbs retries mirrors mi0 le).2.1.length
        = mirrors.length * (retries + 1) := by
  intro mirrors
  induction mirrors with
  | nil =>
    intro mi0 le
    exact ⟨rfl, by simp [tryMirrors]⟩
  | cons base rest ih =>
    intro mi0 le
    have h0 := tryAttempts_all_fail net mi0 base (requestUrl isAbs pathOrUrl base)
      (retries + 1) 0 le (by intro a h1 h2; exact hfail mi0 a)
    rcases ha : tryAttempts net mi0 base (requestUrl isAbs pathOrUrl base) 0 (retries + 1) le
      with ⟨res, log, le2⟩
    rw [ha] at h0
    simp only at h0
    obtain ⟨hres, hlen⟩ := h0
    subst hres
    have h2 := ih (mi0 + 1) le2
    simp only [tryMirrors, ha]
    refine ⟨h2.1, ?_⟩
    simp only [List.length_append, hlen, h2.2, List.length_cons]
    ring

/-- C4: for every run of the fetcher, each mirror receives at most
`retriesPerInstance + 1` requests; and whenever the first cleaned mirror
fails every attempt while the second succeeds on its first attempt, the
run returns that first success with `instanceUsed` equal to the second
mirror and no request is ever issued to a third mirror. -/
theorem mirror_fallback_order :
    (∀ net pathOrUrl opts mi,
      ((fetchHtmlWithFallback net pathOrUrl opts).2.filter
        (fun x => x.mirrorIdx == mi)).length ≤ opts.retriesPerInstance + 1)
    ∧ (∀ net pathOrUrl opts c0 c1 rest h f,
        cleanInstances opts.instances = c0 :: c1 :: rest →
        (∀ a, a ≤ opts.retriesPerInstance → attemptFails (net 0 a) = true) →
        evalAttempt (net 1 0) = Except.ok (h, f) →
        (fetchHtmlWithFallback net pathOrUrl opts).1 = .ok ⟨h, c1, f⟩
        ∧ ∀ x ∈ (fetchHtmlWithFallback net pathOrUrl opts).2, x.mirrorIdx ≤ 1) := by
  constructor
  · intro net pathOrUrl opts mi
    simp only [fetchHtmlWithFallback]
    split
    · simp
    · rcases hm : tryMirrors net pathOrUrl (isHttpAbsolute pathOrUrl) opts.retriesPerInstance
        (cleanInstances opts.instances) 0 none with ⟨res, log, le⟩
      have := tryMirrors_filter_len net pathOrUrl (isHttpAbsolute pathOrUrl)
        opts.retriesPerInstance (cleanInstances opts.instances) 0 none mi
      rw [hm] at this
      cases res with
      | some r => simpa using this
      | none => simpa using this
  · intro net pathOrUrl opts c0 c1 rest h f hclean hfail hok
    have h0 := tryAttempts_all_fail net 0 c0
      (requestUrl (isHttpAbsolute pathOrUrl) pathOrUrl c0) (opts.retriesPerInstance + 1) 0 none
      (by intro a h1 h2; exact hfail a (by omega))
    rcases ha : tryAttempts net 0 c0
        (requestUrl (isHttpAbsolute pathOrUrl) pathOrUrl c0) 0 (opts.retriesPerInstance + 1) none
      with ⟨res0, log0, le0⟩
    rw [ha] at h0
    simp only at h0
    obtain ⟨hres0, hlen0⟩ := h0
    subst hres0
    have hlog0 : ∀ y ∈ log0, y.mirrorIdx = 0 := by
      intro y hy
      have := tryAttempts_mem net 0 c0
        (requestUrl (isHttpAbsolute pathOrUrl) pathOrUrl c0) (opts.retriesPerInstance + 1) 0 none y
      rw [ha] at this
      exact (this hy).1
    have h1 : tryAttempts net 1 c1 (requestUrl (isHttpAbsolute pathOrUrl) pathOrUrl c1) 0
        (opts.retriesPerInstance + 1) le0
        = (some ⟨h, c1, f⟩,
            ([⟨1, 0, requestUrl (isHttpAbsolute pathOrUrl) pathOrUrl c1⟩], le0)) := by
      simp only [tryAttempts, hok]
    have hm : tryMirrors net pathOrUrl (isHttpAbsolute pathOrUrl) opts.retriesPerInstance
        (c0 :: c1 :: rest) 0 none
        = (some ⟨h, c1, f⟩,
            (log0 ++ [⟨1, 0, requestUrl (isHttpAbsolute pathOrUrl) pathOrUrl c1⟩], le0)) := by
      simp only [tryMirrors, ha, h1]
    constructor
    · simp only [fetchHtmlWithFallback, hclean, hm, List.isEmpty_cons, Bool.false_eq_true,
        if_false]
    · intro x hx
      simp only [fetchHtmlWithFallback, hclean, hm, List.isEmpty_cons, Bool.false_eq_true,
        if_false] at hx
      simp at hx
      rcases hx with hx | hx
      · have := hlog0 x hx
        omega
      · rw [hx]

/-- A network where the first mirror always refuses and the second
serves a plausible page. -/
def exNetSecondMirror (mi _ : Nat) : TransportResult :=
  if mi = 0 then .netError "mirror one down"
  else .response true 200 "OK" (pageBody "ok") "https://m2.example/final"

/-- Two configured mirrors. -/
def exOptsTwo : FetchOptions := ⟨["https://m1.example", "https://m2.example"], 10000, 1⟩

set_option maxRecDepth 8000 in
/-- C4 witness: concrete run where mirror one fails every retry and
mirror two succeeds immediately. -/
theorem mirror_fallback_order_witness :
    (fetchHtmlWithFallback exNetSecondMirror "/search?f=tweets&q=x" exOptsTwo).1
      = .ok ⟨pageBody "ok", "https://m2.example", "https://m2.example/final"⟩
    ∧ ∀ x ∈ (fetchHtmlWithFallback exNetSecondMirror "/search?f=tweets&q=x" exOptsTwo).2,
        x.mirrorIdx ≤ 1 :=
  mirror_fallback_order.2 exNetSecondMirror "/search?f=tweets&q=x" exOptsTwo
    "https://m1.example" "https://m2.example" [] (pageBody "ok") "https://m2.example/final"
    (by rfl) (fun a _ => rfl) (by rfl)

/-- C10: when the fetcher's input is an absolute URL, every request of
every attempt on every mirror targets that URL verbatim — the mirror
bases never re-base it — and if every attempt fails, the fetcher still
performs `retriesPerInstance + 1` attempts for each configured mirror,
all against the original URL. -/
theorem absolute_url_not_rebased :
    ∀ net pathOrUrl opts, isHttpAbsolute pathOrUrl = true →
      (∀ x ∈ (fetchHtmlWithFallback net pathOrUrl opts).2, x.url = pathOrUrl)
      ∧ ((∀ mi a, attemptFails (net mi a) = true) →
        (fetchHtmlWithFallback net pathOrUrl opts).2.length
          = (cleanInstances opts.instances).length * (opts.retriesPerInstance + 1)) := by
  intro net pathOrUrl opts habs
  constructor
  · intro x hx
    simp only [fetchHtmlWithFallback, habs] at hx
    split at hx
    · simp at hx
    · rcases hm : tryMirrors net pathOrUrl true opts.retriesPerInstance
        (cleanInstances opts.instances) 0 none with ⟨res, log, le⟩
      rw [hm] at hx
      have hmem := tryMirrors_mem_url net pathOrUrl opts.retriesPerInstance
        (cleanInstances opts.instances) 0 none x
      rw [hm] at hmem
      cases res with
      | some r =>
        simp only at hx
        exact hmem hx
      | none =>
        simp only at hx
        exact hmem hx
  · intro hfail
    simp only [fetchHtmlWithFallback, habs]
    split
    · rename_i hempty
      rw [List.isEmpty_iff] at hempty
      simp [hempty]
    · have h0 := tryMirrors_all_fail net pathOrUrl true opts.retriesPerInstance hfail
        (cleanInstances opts.instances) 0 none
      rcases hm : tryMirrors net pathOrUrl true opts.retriesPerInstance
        (cleanInstances opts.instances) 0 none with ⟨res, log, le⟩
      rw [hm] at h0
      simp only at h0
      obtain ⟨hres, hlen⟩ := h0
      subst hres
      simpa using hlen

/-- A network refusing everything, indexed like the fetcher oracle. -/
def exNetAllDown (_ _ : Nat) : TransportResult := .netError "down"

/-- C10 witness: an absolute URL against two dead mirrors — four
requests, all to the original URL. -/
theorem absolute_url_not_rebased_witness :
    (∀ x ∈ (fetchHtmlWithFallback exNetAllDown "https://x.com/u/status/1" exOptsTwo).2,
      x.url = "https://x.com/u/status/1")
    ∧ (fetchHtmlWithFallback exNetAllDown "https://x.com/u/status/1" exOptsTwo).2.length
        = (cleanInstances exOptsTwo.instances).length * (exOptsTwo.retriesPerInstance + 1) :=
  ⟨(absolute_url_not_rebased exNetAllDown "https://x.com/u/status/1" exOptsTwo (by rfl)).1,
    (absolute_url_not_rebased exNetAllDown "https://x.com/u/status/1" exOptsTwo (by rfl)).2
      (fun _ _ => rfl)⟩

end SocialMediaBot
